import Mathlib

/-!
Shallow embedding of the decision-support and execution core of the
Autonomous-Web-UI-Multi-Agent repository, together with theorems settling
the frozen claims about it.

Sources embedded:
- src/web_agent/dom/scoring.py   (tokenize, intent tables, score_element, is_garbage_name)
- src/web_agent/dom/ranker.py    (score_elements candidate selection)
- src/web_agent/agents/operator.py (agent_b action normalization loop)
- src/web_agent/core/executor.py (_resolve_element, execute_plan action loop,
                                  _safe_select, _compute_dhash, UI-change update)
- src/web_agent/core/history.py  (finalize_step)

Numeric scores are modelled exactly as integers in units of one tenth
(every score constant in the source is a decimal with at most one
fractional digit: 0.5 becomes 5, 1.5 becomes 15, 5.0 becomes 50, and so
on); this scaling preserves sums and strict order. Page interactions are
modelled by explicit outcome environments (the code branches on whether a
wait/click/fill throws, never on the exception payload).
-/

namespace WebAgent

/-! ## String utilities

Python string operations used by the source: lowercase, strip, substring
membership (the `in` operator) and alphanumeric-run tokenization. -/

/-- Python regex class [a-zA-Z0-9] (ASCII letters and digits). -/
def isWordChar (c : Char) : Bool := c.isAlpha || c.isDigit

/-- Python str.lower on the character list of the string. -/
def toLowerStr (s : String) : String := String.mk (s.toList.map Char.toLower)

/-- Python str.strip: drop whitespace from both ends. -/
def strip (s : String) : String :=
  String.mk
    (((s.toList.dropWhile Char.isWhitespace).reverse.dropWhile
        Char.isWhitespace).reverse)

/-- Whether the first list is an initial segment of the second. -/
def listStartsWith : List Char → List Char → Bool
  | [], _ => true
  | _ :: _, [] => false
  | a :: as, b :: bs => if a = b then listStartsWith as bs else false

/-- Whether needle occurs contiguously inside the second list. -/
def containsSeq (needle : List Char) : List Char → Bool
  | [] => needle.isEmpty
  | c :: cs => listStartsWith needle (c :: cs) || containsSeq needle cs

/-- Python substring membership: needle in hay. -/
def isSubstring (needle hay : String) : Bool :=
  containsSeq needle.toList hay.toList

/-- Collect maximal runs of alphanumeric characters; acc holds the current
run in reverse. Mirrors re.findall applied to lowercased text. -/
def tokenizeAux : List Char → List Char → List String
  | [], acc => if acc.isEmpty then [] else [String.mk acc.reverse]
  | c :: cs, acc =>
    if isWordChar c then tokenizeAux cs (c :: acc)
    else if acc.isEmpty then tokenizeAux cs acc
    else String.mk acc.reverse :: tokenizeAux cs []

/-- scoring.py tokenize: lowercase alphanumeric runs. -/
def tokenize (text : String) : List String :=
  tokenizeAux (toLowerStr text).toList []

/-- Size of the intersection of the two token lists viewed as sets:
Python len(set(xs) & set(ys)). -/
def interCount (xs ys : List String) : Nat :=
  (xs.dedup.filter (fun t => ys.contains t)).length

/-- Whether the two token lists share at least one token:
Python bool(set(xs) & set(ys)). -/
def sharesToken (xs ys : List String) : Bool :=
  xs.any (fun t => ys.contains t)

/-! ## Scoring engine (src/web_agent/dom/scoring.py) -/

/-- BASE_ROLE_WEIGHTS table (tenths: 10 is 1.0, 8 is 0.8). -/
def BASE_ROLE_WEIGHTS : List (String × ℤ) :=
  [("button", 10), ("link", 10), ("combobox", 10), ("textbox", 10),
   ("textarea", 10), ("searchbox", 10), ("option", 8), ("menuitem", 8),
   ("checkbox", 8), ("radio", 8), ("tab", 8)]

/-- BASE_ROLE_WEIGHTS.get(role, 0.5), in tenths. -/
def baseRoleWeight (role : String) : ℤ :=
  match BASE_ROLE_WEIGHTS.find? (fun p => p.1 == role) with
  | some p => p.2
  | none => 5

/-- INTENT_KEYWORDS table, in source (insertion) order. -/
def INTENT_KEYWORDS : List (String × List String) :=
  [("profile_settings",
     ["profile", "account", "settings", "preferences", "full name",
      "display name", "avatar", "picture", "password", "email"]),
   ("create_new", ["create", "new", "add", "start", "open new"]),
   ("filter_search", ["filter", "search", "find", "narrow", "show only", "query"]),
   ("navigate_tab", ["go to", "switch to", "tab", "view", "section", "page"]),
   ("form_fill",
     ["fill", "enter", "type", "set", "update", "form", "field", "submit", "save"])]

/-- NEGATIVE_SIGNALS table. -/
def NEGATIVE_SIGNALS : List (String × List String) :=
  [("profile_settings",
     ["issue", "ticket", "task", "filter", "inbox", "project", "create"]),
   ("create_new", ["filter", "search", "settings", "profile", "logout"]),
   ("filter_search", ["create", "new", "settings", "profile", "logout"])]

/-- GENERIC_TOKENS set. -/
def GENERIC_TOKENS : List String :=
  ["workspace", "help", "menu", "sidebar", "navigation"]

/-- DESTRUCTIVE_TOKENS set. -/
def DESTRUCTIVE_TOKENS : List String :=
  ["delete", "remove", "discard", "close", "dismiss", "trash"]

/-- scoring.py classify intent: first table entry with a keyword occurring as
a substring of the lowercased instruction wins; default generic. -/
def classify_intent (instruction : String) : String :=
  let instrLower := toLowerStr instruction
  match INTENT_KEYWORDS.find?
      (fun p => p.2.any (fun kw => isSubstring kw instrLower)) with
  | some p => p.1
  | none => "generic"

/-- NEGATIVE_SIGNALS.get(intent, empty set). -/
def negativeSignalsFor (intent : String) : List String :=
  match NEGATIVE_SIGNALS.find? (fun p => p.1 == intent) with
  | some p => p.2
  | none => []

/-- scoring.py layer 1 lexical match: exact-phrase bonus plus shared-token
bonus. The name argument is the combined name plus placeholder. -/
def score_lexical_match (instruction name : String)
    (instrTokens nameTokens : List String) : ℤ :=
  let phrase : ℤ :=
    if name ≠ "" && isSubstring (toLowerStr name) (toLowerStr instruction) then
      (if name.length > 3 then 50 else 20)
    else 0
  if instrTokens.isEmpty || nameTokens.isEmpty then phrase
  else
    let overlap := interCount instrTokens nameTokens
    if overlap > 0 then phrase + 30 * (overlap : ℤ) else phrase

/-- scoring.py layer 2 intent-aware role bias. -/
def score_role_bias (role landmark intent : String)
    (nameTokens : List String) : ℤ :=
  let base := baseRoleWeight role
  if intent == "profile_settings" then
    base
    + (if ["settings", "profile", "account", "workspace"].any
          (fun t => nameTokens.contains t) then 20 else 0)
    + (if ["navigation", "banner", "contentinfo"].contains landmark then 10 else 0)
  else if intent == "create_new" then
    base
    + (if ["create", "new", "add"].any (fun t => nameTokens.contains t) then 20 else 0)
    + (if landmark == "main" then 10 else 0)
  else if intent == "filter_search" then
    base
    + (if ["filter", "search"].any (fun t => nameTokens.contains t) then 20 else 0)
  else if intent == "form_fill" then
    base
    + (if ["textbox", "textarea", "combobox", "checkbox", "radio"].contains role
       then 15 else 0)
    + (if landmark == "main" then 10 else 0)
  else base

/-- scoring.py layer 3 negative signals. -/
def score_negative_signals (intent : String)
    (nameTokens instrTokens : List String) : ℤ :=
  let conflict := negativeSignalsFor intent
  (if sharesToken conflict nameTokens && !(sharesToken conflict instrTokens)
   then -20 else 0)
  + (if sharesToken nameTokens GENERIC_TOKENS then -5 else 0)
  + (if nameTokens.any (fun t => DESTRUCTIVE_TOKENS.contains t)
        && !(instrTokens.any (fun t => DESTRUCTIVE_TOKENS.contains t))
     then -30 else 0)

/-- scoring.py is_garbage_name: empty names are never garbage; purely
numeric names are; names under 3 characters are unless whitelisted. -/
def is_garbage_name (name : String) : Bool :=
  if name = "" then false
  else if name.toList.all (fun c => c.isDigit) then true
  else if name.length < 3
      && !(["ok", "go", "id", "up", "to", "at", "in", "on", "by"].contains
            (toLowerStr name)) then true
  else false

/-- One interactable element record. Missing dict keys in the source become
empty strings (the code reads every field with a fallback of the empty
string); playwright_snippet is kept for the executor. -/
structure Elem where
  id : String := ""
  role : String := ""
  name : String := ""
  landmark : String := ""
  placeholder : String := ""
  value : String := ""
  snippet : String := ""
deriving Repr, DecidableEq

/-- The retry-penalty term of score_element layer 4:
Python if tried_ids and elem_id in tried_ids. -/
def retryPenalty (elemId : String) (triedIds : List String)
    (uiSame : Bool) : ℤ :=
  if !triedIds.isEmpty && triedIds.contains elemId then
    (if uiSame then -50 else -15)
  else 0

/-- scoring.py score_element: additive 4-layer score of one element against
one instruction string. -/
def score_element (elem : Elem) (instruction : String)
    (triedIds : List String) (uiSame : Bool) : ℤ :=
  let name := strip elem.name
  let placeholder := strip elem.placeholder
  let fullName := strip (name ++ " " ++ placeholder)
  let instrTokens := tokenize instruction
  let nameTokens := tokenize fullName
  let intent := classify_intent instruction
  score_lexical_match instruction fullName instrTokens nameTokens
  + score_role_bias elem.role elem.landmark intent nameTokens
  + score_negative_signals intent nameTokens instrTokens
  + retryPenalty elem.id triedIds uiSame
  + (if is_garbage_name name then -50 else 0)

/-! ## Proposed actions and the Validator (src/web_agent/agents/operator.py, agent_b) -/

/-- The params map of a proposed action. The source reads exactly the keys
text, value, option, key and keys; a missing key reads as none. -/
structure Params where
  text : Option String := none
  value : Option String := none
  option : Option String := none
  key : Option String := none
  keys : Option String := none
deriving Repr, DecidableEq

/-- An untrusted proposed action. A missing action or target_id key is none;
the source coerces target_id with str so it is kept as a string. -/
structure PAction where
  action : Option String := none
  target_id : Option String := none
  params : Params := {}
deriving Repr, DecidableEq

/-- Python truthiness of an optional string: present and non-empty. -/
def truthy (o : Option String) : Bool :=
  match o with
  | some s => s ≠ ""
  | none => false

/-- Python a or b on optional strings, landing in a plain string:
the first truthy value, else the empty string. -/
def orFalsy (a b : Option String) : String :=
  match a with
  | some s => if s ≠ "" then s else b.getD ""
  | none => b.getD ""

/-- The role_by_id dict built in agent_b: later list entries overwrite
earlier ones, lookup of an unknown id gives the empty string. -/
def roleById (top : List Elem) (tid : String) : String :=
  match top.reverse.find? (fun e => e.id == tid) with
  | some e => e.role
  | none => ""

/-- Roles a fill action is allowed to target in agent_b. -/
def FILLABLE_ROLES : List String :=
  ["textbox", "textarea", "searchbox", "combobox", "contenteditable"]

/-- Roles a select action is allowed to target in agent_b. -/
def SELECTABLE_ROLES : List String := ["combobox", "menuitem"]

/-- Whether the per-action guards of the agent_b normalization loop keep the
action, given the role looked up for its target id. -/
def keepAction (a : PAction) (role : String) : Bool :=
  match a.action with
  | some "fill" =>
    (truthy a.params.text || truthy a.params.value)
      && FILLABLE_ROLES.contains role
  | some "select" =>
    (truthy a.params.option || truthy a.params.value)
      && SELECTABLE_ROLES.contains role
  | some "press" => truthy a.params.key
  | some "click" => true
  | _ => false

/-- The normalization loop of agent_b (operator.py lines 289-349): skip
actions without a target id, skip ids already seen in this batch (the id is
recorded as seen before the role guards run, exactly as in the source), then
apply the per-action-type guards. -/
def agent_b_normalize (top : List Elem) :
    List PAction → List String → List PAction
  | [], _ => []
  | a :: rest, seen =>
    match a.target_id with
    | none => agent_b_normalize top rest seen
    | some tid =>
      if seen.contains tid then agent_b_normalize top rest seen
      else
        if keepAction a (roleById top tid) then
          a :: agent_b_normalize top rest (tid :: seen)
        else
          agent_b_normalize top rest (tid :: seen)

/-- The Validator output for one untrusted batch. -/
def validatorOutput (top : List Elem) (actions : List PAction) : List PAction :=
  agent_b_normalize top actions []

/-! ## Ranker (src/web_agent/dom/ranker.py, score_elements) -/

/-- One field of a form plan. -/
structure FField where
  label : String := ""
  value : String := ""
  option : String := ""
  kind : String := ""
deriving Repr, DecidableEq

/-- A structured form plan from the Planner. The done flag is the defensive
plan_steps done marker read by finalize_step. -/
structure PlanSteps where
  type : String := ""
  fields : List FField := []
  submit : Bool := false
  done : Bool := false
deriving Repr, DecidableEq

/-- An element together with its score (the e_copy dicts built by the
ranker). -/
structure ScoredElem where
  elem : Elem
  score : ℤ
deriving Repr, DecidableEq

/-- ranker.py form-mode test on the instruction alone: must look like a
form-filling instruction. -/
def instrFormHeuristic (instruction : String) : Bool :=
  let lc := toLowerStr instruction
  isSubstring "fill" lc && (isSubstring "form" lc || isSubstring "details" lc)

/-- ranker.py is_form_mode: an explicit form plan, else the instruction
heuristic. A present plan is modelled as truthy. -/
def isFormMode (instruction : String) (planSteps : Option PlanSteps) : Bool :=
  match planSteps with
  | some p => if p.type == "form" then true else instrFormHeuristic instruction
  | none => instrFormHeuristic instruction

/-- ranker.py current_top_k: baseline 10, enlarged to 25 in form mode. -/
def currentTopK (instruction : String) (planSteps : Option PlanSteps) : Nat :=
  if isFormMode instruction planSteps then 25 else 10

/-- The per-element score used by the ranker: score_element, minus 10 for an
ineffective target, plus 3 per form-plan field whose label occurs in the
element name or placeholder. -/
def rankScore (e : Elem) (instruction : String)
    (triedIds ineffectiveTargets : List String) (uiSame : Bool)
    (planSteps : Option PlanSteps) : ℤ :=
  let s := score_element e instruction triedIds uiSame
  let s := if ineffectiveTargets.contains e.id then s - 100 else s
  match planSteps with
  | some p =>
    if p.type == "form" then
      s + 30 * ((p.fields.filter (fun f =>
        let fl := toLowerStr f.label
        fl ≠ ""
          && (isSubstring fl (toLowerStr e.name)
              || isSubstring fl (toLowerStr e.placeholder)))).length : ℤ)
    else s
  | none => s

/-- Insert an element into a list already sorted by descending score,
after every element of greater-or-equal score. Folding this over the scored
list reproduces the stable descending sort computed by the source
(Python sorted with key score and reverse true is stable). -/
def insertByScoreDesc (e : ScoredElem) : List ScoredElem → List ScoredElem
  | [] => [e]
  | x :: xs => if x.score ≥ e.score then x :: insertByScoreDesc e xs
               else e :: x :: xs

/-- Stable sort by descending score. -/
def sortByScoreDesc (l : List ScoredElem) : List ScoredElem :=
  l.foldl (fun acc e => insertByScoreDesc e acc) []

/-- Keywords that trigger the text-input coverage pass. -/
def FILL_PASS_TOKENS : List String := ["fill", "title", "description", "field"]

/-- Keywords that trigger the combobox coverage pass. -/
def SELECT_PASS_TOKENS : List String := ["select", "dropdown", "choose", "option"]

/-- ranker.py score_elements selection: score all elements, stable-sort
descending, take the top K, then run the two coverage passes that append up
to 5 text-input-capable elements and up to 5 comboboxes not yet selected. -/
def selectCandidates (instruction : String) (elements : List Elem)
    (triedIds ineffectiveTargets : List String) (uiSame : Bool)
    (planSteps : Option PlanSteps) : List ScoredElem :=
  let scored := elements.map (fun e =>
    ⟨e, rankScore e instruction triedIds ineffectiveTargets uiSame planSteps⟩)
  let sorted := sortByScoreDesc scored
  let k := currentTopK instruction planSteps
  let selected := sorted.take k
  let usedIds := selected.map (fun e => e.elem.id)
  let lc := toLowerStr instruction
  let selected :=
    if FILL_PASS_TOKENS.any (fun t => isSubstring t lc) then
      selected ++ (sorted.filter (fun e =>
        ["textbox", "textarea", "searchbox", "contenteditable"].contains e.elem.role
          && !usedIds.contains e.elem.id)).take 5
    else selected
  let usedIds := selected.map (fun e => e.elem.id)
  let selected :=
    if SELECT_PASS_TOKENS.any (fun t => isSubstring t lc) then
      selected ++ (sorted.filter (fun e =>
        e.elem.role == "combobox" && !usedIds.contains e.elem.id)).take 5
    else selected
  selected

/-! ## Select execution (src/web_agent/core/executor.py, _safe_select) -/

/-- The page-dependent outcomes _safe_select can observe, plus the two
fallback capabilities the specification attributes to the executor
(role-option match by name; typeahead). The source function never consults
the last two fields; they are part of the environment so that the claimed
fallback behaviour can be stated. -/
structure SelectEnv where
  valueMatches : Bool
  visible : Bool
  openClickOk : Bool
  optionTextClickOk : Bool
  roleOptionByNameOk : Bool
  typeaheadOk : Bool
deriving Repr, DecidableEq

/-- Result of _safe_select as observed by execute_plan: returned True,
returned False, or raised. -/
inductive SelectOutcome where
  | ok
  | failedFalse
  | raised (msg : String)
deriving Repr, DecidableEq

/-- executor.py _safe_select: skip when the value already matches; require
visibility (raise otherwise); click to open (raise on failure); then click
the first node with visible text equal to the option (return False on
failure); otherwise return True. -/
def safe_select (env : SelectEnv) : SelectOutcome :=
  if env.valueMatches then .ok
  else if !env.visible then .raised "Select combobox not visible"
  else if !env.openClickOk then .raised "Select failed to open combobox"
  else if !env.optionTextClickOk then .failedFalse
  else .ok

/-! ## Executor action loop (src/web_agent/core/executor.py, execute_plan) -/

/-- The metadata consulted by _resolve_element: the in-memory top_k list
first, then the full element list. -/
structure ExecMeta where
  top_k : List Elem := []
  elements : List Elem := []
deriving Repr

/-- executor.py _resolve_element: first element of top_k then elements whose
id matches; none models the RuntimeError raised when no element matches. -/
def resolve_element (meta : ExecMeta) (tid : String) : Option Elem :=
  (meta.top_k ++ meta.elements).find? (fun e => e.id == tid)

/-- Outcomes of the live-page calls made by the executor. Each field answers
whether the corresponding Playwright interaction completes without raising;
the code only branches on success or exception, never on exception
contents. -/
structure PageEnv where
  locatorOk : String → Bool
  clickOk : Elem → Bool
  fillOk : Elem → String → Bool
  pressOk : Elem → String → Bool
  selectEnvOf : Elem → String → SelectEnv

/-- Roles _safe_fill rejects up front. -/
def UNFILLABLE_ROLES : List String := ["button", "link", "tab", "menuitem", "switch"]

/-- Date-like option strings the executor refuses to feed into a status-like
control. -/
def DATE_LIKE_OPTIONS : List String :=
  ["today", "tomorrow", "next week", "next day", "next month"]

/-- The body of the per-action try block of execute_plan: true when the
action completes and its target id is recorded as executed, false when the
action is skipped or its attempt raises (both continue with the next
action). Mirrors executor.py lines 304-373, with page outcomes supplied by
the environment. -/
def actionSucceeds (env : PageEnv) (plan : PAction) (elem : Elem)
    (action : String) : Bool :=
  if action == "click" then env.clickOk elem
  else if action == "fill" then
    let text := orFalsy plan.params.text plan.params.value
    if text = "" then false
    else if elem.role ≠ "" && UNFILLABLE_ROLES.contains elem.role then false
    else env.fillOk elem text
  else if action == "select" then
    let opt := plan.params.option.getD ""
    if opt = "" then false
    else if !(SELECTABLE_ROLES.contains elem.role) then false
    else if isSubstring "status" (toLowerStr elem.name)
        && DATE_LIKE_OPTIONS.contains (toLowerStr opt) then false
    else safe_select (env.selectEnvOf elem opt) == SelectOutcome.ok
  else if action == "press" then
    let key := orFalsy plan.params.key plan.params.keys
    if key = "" then false else env.pressOk elem key
  else false

/-- The action loop of execute_plan (executor.py lines 280-373), without the
wall-clock budget (a real-time bound outside the shallow embedding).
Returns the ids of actions that executed, in order. A falsy target id or
action, a target id that resolves to no element, a missing snippet, or a
locator that fails to resolve raises (error), aborting the whole batch;
failures inside the try block merely skip the action. -/
def execute_plan_actions (meta : ExecMeta) (env : PageEnv) :
    List PAction → Except String (List String)
  | [] => .ok []
  | plan :: rest =>
    let tid := plan.target_id.getD ""
    let action := plan.action.getD ""
    if tid = "" || action = "" then
      .error "Invalid action plan"
    else
      match resolve_element meta tid with
      | none => .error ("Element with id " ++ tid ++ " not found in metadata.")
      | some elem =>
        if elem.snippet = "" then
          .error ("No snippet for element id " ++ tid)
        else if !env.locatorOk elem.snippet then
          .error ("Failed to resolve locator from snippet: " ++ elem.snippet)
        else
          let ok := actionSucceeds env plan elem action
          match execute_plan_actions meta env rest with
          | .ok ids => .ok (if ok then tid :: ids else ids)
          | .error e => .error e

/-! ## Change detection and loop state (executor.py lines 392-446,
history.py) -/

/-- The RunState fields read and written by the embedded core. Defaults
mirror the Python dict reads with fallbacks. -/
structure LoopState where
  step : Nat := 0
  done : Bool := false
  maybe_done : Bool := false
  plan_steps : Option PlanSteps := none
  instruction : Option String := none
  completion_via : Option String := none
  ui_same : Bool := false
  actions : List PAction := []
  followup_hint : Option String := none
  history : List String := []
  planning_mode : Option String := none
  last_planning_mode : Option String := none
  dom_attempts_on_this_screen : Nat := 0
  last_step_succeeded : Bool := false
  last_image_hash : Option Nat := none
  no_change_steps : Nat := 0
  ineffective_targets : List String := []
  tried_ids : List String := []
  last_actions : List PAction := []
deriving Repr

/-- Python list(set(base) united with new): membership is the union; the
concrete order of a Python set is unspecified, so any order with the same
membership is a faithful model. -/
def listUnion (base new : List String) : List String :=
  base.dedup ++ new.dedup.filter (fun t => !base.contains t)

/-- The UI-change bookkeeping at the end of execute_plan (executor.py lines
416-442): compare the fresh fingerprint with the stored one (never equal on
a missing previous hash or on the sentinel 0), then update the no-change
streak, the ineffective-target set (falsy ids filtered out), the
success flag and the cumulative tried ids. -/
def update_ui_change (st : LoopState) (currentHash : Nat)
    (executedIds : List String) : LoopState :=
  let uiSame :=
    match st.last_image_hash with
    | some h => currentHash != 0 && currentHash == h
    | none => false
  let executed := executedIds.filter (fun t => t ≠ "")
  let st := { st with ui_same := uiSame, last_image_hash := some currentHash }
  let st :=
    if uiSame then
      { st with no_change_steps := st.no_change_steps + 1,
                ineffective_targets := listUnion st.ineffective_targets executed }
    else
      { st with no_change_steps := 0, ineffective_targets := [] }
  { st with last_step_succeeded := !uiSame,
            tried_ids := st.tried_ids ++ executed }

/-- history.py MAX_STEPS. -/
def MAX_STEPS : Nat := 15

/-- Python x or default on an optional string field. -/
def orDefault (o : Option String) (d : String) : String :=
  match o with
  | some s => if s ≠ "" then s else d
  | none => d

/-- The plan_steps done marker read defensively by finalize_step. -/
def planStepsDone (p : Option PlanSteps) : Bool :=
  match p with
  | some ps => ps.done
  | none => false

/-- history.py finalize_step: bump the step counter, decide completion
(plan-steps marker, then the goal-completed instruction phrase, then the
hard step cap), record the completion reason, update the success flag, the
DOM-attempt counter and the 5-entry rolling history, and clear the per-step
scratch fields on non-terminal steps. Dataset logging is I/O and is not
modelled. -/
def finalize_step (st : LoopState) : LoopState :=
  let step := st.step + 1
  let maybeDoneFlag := st.maybe_done
  let instruction := st.instruction.getD ""
  let instrLc := toLowerStr instruction
  let done0 := st.done
  let fired :=
    if planStepsDone st.plan_steps then
      some "plan_steps"
    else if !done0 && isSubstring "goal completed" instrLc then
      some "navigator_instruction"
    else if step ≥ MAX_STEPS then
      some "max_steps"
    else none
  let done := if fired.isSome then true else done0
  let via :=
    match fired with
    | some reason => some (orDefault st.completion_via reason)
    | none => st.completion_via
  let uiSame := st.ui_same
  let actions := st.actions
  let succeeded :=
    if done then true else if actions.isEmpty then false else !uiSame
  let domAttempts :=
    if !uiSame then 0
    else if st.planning_mode == some "dom" then
      st.dom_attempts_on_this_screen + 1
    else st.dom_attempts_on_this_screen
  let actionSummary :=
    String.intercalate ", " (actions.map (fun a =>
      (a.action.getD "None") ++ " " ++ (a.target_id.getD "None")))
  let historyEntry :=
    "Step " ++ toString step ++ ": Instr=" ++ instruction
      ++ " Actions=[" ++ actionSummary ++ "] Followup="
      ++ (st.followup_hint.getD "")
  let history0 := st.history ++ [historyEntry]
  let history :=
    if history0.length > 5 then history0.drop (history0.length - 5)
    else history0
  let st := { st with
    step := step, done := done, completion_via := via,
    last_planning_mode := st.planning_mode,
    last_step_succeeded := succeeded,
    dom_attempts_on_this_screen := domAttempts,
    history := history }
  if !done then
    { st with instruction := none, plan_steps := none, actions := [],
              followup_hint := none, last_actions := actions,
              maybe_done := maybeDoneFlag }
  else
    { st with last_actions := actions, maybe_done := true }

/-! ## Difference hash (executor.py _compute_dhash, also src/test_dhash.py)

The byte-to-grid part (PNG decode, grayscale, LANCZOS resize) is outside a
shallow embedding; the hash is modelled on the 9 by 8 grayscale grid the
source reads its 72 pixel values from, exactly as the comparison loop does. -/

/-- The 64 row-major comparison bits: for each of 8 rows, compare the 8
adjacent horizontal pixel pairs of the 9-wide grid. -/
def dhashBits (pixels : List Nat) : List Bool :=
  ((List.range 8).map (fun row =>
    (List.range 8).map (fun col =>
      decide (pixels.getD (row * 9 + col) 0 > pixels.getD (row * 9 + col + 1) 0)))).flatten

/-- Python sum of 1 shifted left by i over the indices of true bits. -/
def bitsValue : List Bool → Nat → Nat
  | [], _ => 0
  | b :: rest, i => (if b then 2 ^ i else 0) + bitsValue rest (i + 1)

/-- executor.py _compute_dhash on the grayscale grid: a grid with fewer than
the 72 required pixels raises inside the try block and yields the sentinel
0, otherwise the 64 comparison bits are packed into an integer. -/
def compute_dhash (pixels : List Nat) : Nat :=
  if pixels.length < 72 then 0
  else bitsValue (dhashBits pixels) 0

/-- Exact color inversion of an 8-bit grayscale grid. -/
def invertPixels (pixels : List Nat) : List Nat :=
  pixels.map (fun p => 255 - p)

/-- The 9 by 8 checkerboard grid (alternating 0 and 255), the grid-level
counterpart of the checkerboard image built in src/test_dhash.py. -/
def checkerGrid : List Nat :=
  (List.range 72).map (fun i => if (i / 9 + i % 9) % 2 == 0 then 0 else 255)

/-! ## Concrete instances used by witnesses and counterexamples -/

/-- score_element with the final garbage-name branch not taken; used to
state that the garbage penalty contributes nothing for empty names. -/
def score_element_sans_garbage (elem : Elem) (instruction : String)
    (triedIds : List String) (uiSame : Bool) : ℤ :=
  let name := strip elem.name
  let placeholder := strip elem.placeholder
  let fullName := strip (name ++ " " ++ placeholder)
  let instrTokens := tokenize instruction
  let nameTokens := tokenize fullName
  let intent := classify_intent instruction
  score_lexical_match instruction fullName instrTokens nameTokens
  + score_role_bias elem.role elem.landmark intent nameTokens
  + score_negative_signals intent nameTokens instrTokens
  + retryPenalty elem.id triedIds uiSame

/-- A page environment in which every interaction succeeds. -/
def happyPageEnv : PageEnv where
  locatorOk := fun _ => true
  clickOk := fun _ => true
  fillOk := fun _ _ => true
  pressOk := fun _ _ => true
  selectEnvOf := fun _ _ =>
    { valueMatches := false, visible := true, openClickOk := true,
      optionTextClickOk := true, roleOptionByNameOk := true, typeaheadOk := true }

/-- Executor metadata holding a single known element with id 1. -/
def c1Meta : ExecMeta :=
  { top_k := [{ id := "1", role := "button", name := "Create issue",
                snippet := "page.get_by_role" }],
    elements := [] }

/-- A click action whose target id resolves to no known element. -/
def c1Dangling : PAction := { action := some "click", target_id := some "999" }

/-- A click action on the known element. -/
def c1Good : PAction := { action := some "click", target_id := some "1" }

/-- A candidate list holding one textbox with id 5. -/
def c1Top : List Elem := [{ id := "5", role := "textbox", name := "Issue title" }]

/-- A fill on the known textbox. -/
def c1Fill : PAction :=
  { action := some "fill", target_id := some "5", params := { text := some "testing" } }

/-- The select environment of a control whose option text cannot be clicked
but on which the two specified fallback strategies would succeed. -/
def c3Env : SelectEnv :=
  { valueMatches := false, visible := true, openClickOk := true,
    optionTextClickOk := false, roleOptionByNameOk := true, typeaheadOk := true }

/-- A select environment in which the text-match click succeeds. -/
def c3EnvOk : SelectEnv :=
  { valueMatches := false, visible := true, openClickOk := true,
    optionTextClickOk := true, roleOptionByNameOk := false, typeaheadOk := false }

/-- Ten buttons named fill, ranked above one textbox, for the ranker
counterexample. -/
def c4Elems : List Elem :=
  (List.range 10).map (fun i =>
    { id := toString i, role := "button", name := "fill" })
  ++ [{ id := "t", role := "textbox", name := "zzz" }]

/-- A run state at step 14 whose instruction carries the completion
phrase. -/
def c6State : LoopState :=
  { step := 14, done := false, instruction := some "Goal completed." }

/-- A run state at step 14 with no competing completion signal. -/
def c6Plain : LoopState := { step := 14, done := false }

/-- A run state whose previous fingerprint is 5. -/
def c7State : LoopState := { last_image_hash := some 5, ineffective_targets := ["z"] }

/-- An element used by concrete scoring witnesses. -/
def c5Elem : Elem := { id := "", role := "button", name := "Submit", landmark := "main" }

/-- An element with an empty accessible name. -/
def c9Elem : Elem := { id := "9", role := "button", name := "" }

/-! ## Theorems -/

/-- Membership transfers from either side into the union computed by
listUnion. -/
theorem mem_listUnion_right {base new : List String} {a : String}
    (ha : a ∈ new) : a ∈ listUnion base new := by
  unfold listUnion
  by_cases hb : base.contains a = true
  · exact List.mem_append_left _ (List.mem_dedup.mpr (List.elem_iff.mp hb))
  · refine List.mem_append_right _ (List.mem_filter.mpr ⟨List.mem_dedup.mpr ha, ?_⟩)
    simpa using hb

/-- The retry penalty of a tried id: 5.0 with unchanged UI, 1.5 without. -/
theorem retryPenalty_mem {tid : String} {tried : List String} (h : tid ∈ tried) :
    retryPenalty tid tried true = -50 ∧ retryPenalty tid tried false = -15 := by
  unfold retryPenalty
  have hne : tried.isEmpty = false := by
    cases tried with
    | nil => cases h
    | cons a l => rfl
  have hc : tried.contains tid = true := List.elem_iff.mpr h
  rw [hne, hc]
  simp

/-- The retry penalty of an untried id. -/
theorem retryPenalty_not_mem {tid : String} {tried : List String}
    (h : tid ∉ tried) (ui : Bool) : retryPenalty tid tried ui = 0 := by
  unfold retryPenalty
  have hc : tried.contains tid = false := by simpa using h
  rw [hc]
  simp

/-- C5: for every element and instruction, an element whose id is in
triedIds scores strictly lower than an otherwise-identical element whose id
is not in triedIds, and the decrease under uiUnchanged is strictly larger
than the decrease without uiUnchanged. -/
theorem claim_c5_retry_penalty (e : Elem) (id1 id2 instr : String)
    (tried : List String) (h1 : id1 ∈ tried) (h2 : id2 ∉ tried) :
    (∀ uiSame : Bool,
      score_element { e with id := id1 } instr tried uiSame
        < score_element { e with id := id2 } instr tried uiSame)
    ∧ (score_element { e with id := id2 } instr tried true
         - score_element { e with id := id1 } instr tried true)
      > (score_element { e with id := id2 } instr tried false
         - score_element { e with id := id1 } instr tried false) := by
  have key : ∀ ui : Bool,
      score_element { e with id := id1 } instr tried ui
        = score_element { e with id := id2 } instr tried ui
          - retryPenalty id2 tried ui + retryPenalty id1 tried ui := by
    intro ui
    simp only [score_element]
    ring
  constructor
  · intro ui
    cases ui
    · rw [key false, (retryPenalty_mem h1).2, retryPenalty_not_mem h2]
      linarith
    · rw [key true, (retryPenalty_mem h1).1, retryPenalty_not_mem h2]
      linarith
  · rw [key true, key false, (retryPenalty_mem h1).1, (retryPenalty_mem h1).2,
        retryPenalty_not_mem h2, retryPenalty_not_mem h2]
    linarith

/-- C5 witness: concrete instantiation on the Submit button of
src/test_scoring.py with tried ids containing id 1. -/
theorem claim_c5_retry_penalty_witness :
    (∀ uiSame : Bool,
      score_element { c5Elem with id := "1" } "Click Submit" ["1"] uiSame
        < score_element { c5Elem with id := "2" } "Click Submit" ["1"] uiSame)
    ∧ (score_element { c5Elem with id := "2" } "Click Submit" ["1"] true
         - score_element { c5Elem with id := "1" } "Click Submit" ["1"] true)
      > (score_element { c5Elem with id := "2" } "Click Submit" ["1"] false
         - score_element { c5Elem with id := "1" } "Click Submit" ["1"] false) :=
  claim_c5_retry_penalty c5Elem "1" "2" "Click Submit" ["1"]
    (by decide) (by decide)

/-- C9: an empty accessible name is never classified as garbage, and for an
element with empty name score_element equals the sum of the first three
layers plus the retry penalty, with no garbage penalty applied. -/
theorem claim_c9_empty_name (e : Elem) (instr : String) (tried : List String)
    (ui : Bool) (h : e.name = "") :
    is_garbage_name (strip e.name) = false
    ∧ score_element e instr tried ui
        = score_element_sans_garbage e instr tried ui := by
  have ht : strip e.name = "" := by rw [h]; decide
  have hg : is_garbage_name (strip e.name) = false := by rw [ht]; decide
  refine ⟨hg, ?_⟩
  simp [score_element, score_element_sans_garbage, hg]

/-- C9 witness: concrete empty-named button. -/
theorem claim_c9_empty_name_witness :
    is_garbage_name (strip c9Elem.name) = false
    ∧ score_element c9Elem "Click Submit" ["9"] true
        = score_element_sans_garbage c9Elem "Click Submit" ["9"] true :=
  claim_c9_empty_name c9Elem "Click Submit" ["9"] true (by decide)

/-- Target ids of the normalized output are distinct and avoid the seen
set. -/
theorem agent_b_normalize_ids (top : List Elem) :
    ∀ (acts : List PAction) (seen : List String),
      ((agent_b_normalize top acts seen).filterMap PAction.target_id).Nodup
      ∧ ∀ tid ∈ (agent_b_normalize top acts seen).filterMap PAction.target_id,
          tid ∉ seen := by
  intro acts
  induction acts with
  | nil => intro seen; simp [agent_b_normalize]
  | cons a rest ih =>
    intro seen
    cases hta : a.target_id with
    | none =>
      have hEq : agent_b_normalize top (a :: rest) seen
          = agent_b_normalize top rest seen := by
        simp only [agent_b_normalize, hta]
      rw [hEq]; exact ih seen
    | some tid =>
      have hEq : agent_b_normalize top (a :: rest) seen
          = if seen.contains tid = true then agent_b_normalize top rest seen
            else if keepAction a (roleById top tid) = true then
              a :: agent_b_normalize top rest (tid :: seen)
            else agent_b_normalize top rest (tid :: seen) := by
        simp only [agent_b_normalize, hta]
      rw [hEq]
      by_cases hseen : seen.contains tid = true
      · rw [if_pos hseen]; exact ih seen
      · rw [if_neg hseen]
        have htid : tid ∉ seen := by simpa using hseen
        by_cases hkeep : keepAction a (roleById top tid) = true
        · rw [if_pos hkeep]
          obtain ⟨hnodup, havoid⟩ := ih (tid :: seen)
          have hfm : (a :: agent_b_normalize top rest (tid :: seen)).filterMap
                PAction.target_id
              = tid :: (agent_b_normalize top rest (tid :: seen)).filterMap
                  PAction.target_id := by
            simp [List.filterMap_cons, hta]
          rw [hfm]
          constructor
          · refine List.nodup_cons.mpr ⟨?_, hnodup⟩
            intro hmem
            exact (havoid tid hmem) (List.mem_cons_self tid seen)
          · intro t ht
            rcases List.mem_cons.mp ht with h | h
            · exact h ▸ htid
            · exact fun hm => (havoid t h) (List.mem_cons_of_mem _ hm)
        · rw [if_neg hkeep]
          obtain ⟨hnodup, havoid⟩ := ih (tid :: seen)
          exact ⟨hnodup, fun t ht hm => (havoid t ht) (List.mem_cons_of_mem _ hm)⟩

/-- Every action kept by the normalization loop has a target id that passed
the per-action-type guards. -/
theorem agent_b_normalize_kept (top : List Elem) :
    ∀ (acts : List PAction) (seen : List String) (a : PAction),
      a ∈ agent_b_normalize top acts seen →
      ∃ tid, a.target_id = some tid
        ∧ keepAction a (roleById top tid) = true := by
  intro acts
  induction acts with
  | nil => intro seen a ha; cases ha
  | cons b rest ih =>
    intro seen a ha
    cases htb : b.target_id with
    | none =>
      have hEq : agent_b_normalize top (b :: rest) seen
          = agent_b_normalize top rest seen := by
        simp only [agent_b_normalize, htb]
      rw [hEq] at ha
      exact ih seen a ha
    | some tid =>
      have hEq : agent_b_normalize top (b :: rest) seen
          = if seen.contains tid = true then agent_b_normalize top rest seen
            else if keepAction b (roleById top tid) = true then
              b :: agent_b_normalize top rest (tid :: seen)
            else agent_b_normalize top rest (tid :: seen) := by
        simp only [agent_b_normalize, htb]
      rw [hEq] at ha
      by_cases hseen : seen.contains tid = true
      · rw [if_pos hseen] at ha
        exact ih seen a ha
      · rw [if_neg hseen] at ha
        by_cases hkeep : keepAction b (roleById top tid) = true
        · rw [if_pos hkeep] at ha
          rcases List.mem_cons.mp ha with h | h
          · exact ⟨tid, h ▸ htb, h ▸ hkeep⟩
          · exact ih (tid :: seen) a h
        · rw [if_neg hkeep] at ha
          exact ih (tid :: seen) a ha

/-- C2: for every untrusted input batch, the Validator output never contains
two actions with the same target id, and never contains a fill action whose
target role is button. -/
theorem claim_c2_validator (top : List Elem) (actions : List PAction) :
    ((validatorOutput top actions).filterMap PAction.target_id).Nodup
    ∧ ∀ a ∈ validatorOutput top actions, a.action = some "fill" →
        roleById top (a.target_id.getD "") ≠ "button" := by
  refine ⟨(agent_b_normalize_ids top actions []).1, ?_⟩
  intro a ha hfill
  obtain ⟨tid, htid, hkeep⟩ := agent_b_normalize_kept top actions [] a ha
  rw [htid, Option.getD_some]
  intro hbtn
  rw [keepAction, hfill, hbtn] at hkeep
  simp at hkeep
  exact absurd hkeep.2 (by decide)

/-- C2 witness: the fill action on the textbox candidate of end-to-end
scenario A is kept, its target id list is duplicate-free, and its target
role is not button. -/
theorem claim_c2_validator_witness :
    ((validatorOutput c1Top [c1Fill]).filterMap PAction.target_id).Nodup
    ∧ roleById c1Top "5" ≠ "button" := by
  have h := claim_c2_validator c1Top [c1Fill]
  refine ⟨h.1, ?_⟩
  have hmem : c1Fill ∈ validatorOutput c1Top [c1Fill] := by decide
  exact h.2 c1Fill hmem rfl

/-- A non-empty role looked up by roleById comes from an element of the
candidate list with the looked-up id. -/
theorem roleById_mem (top : List Elem) (tid : String)
    (h : roleById top tid ≠ "") : ∃ e ∈ top, e.id = tid := by
  unfold roleById at h
  cases hf : top.reverse.find? (fun e => e.id == tid) with
  | none => rw [hf] at h; exact absurd rfl h
  | some e =>
    have hp := List.find?_some hf
    have hp2 : (e.id == tid) = true := hp
    exact ⟨e, List.mem_reverse.mp (List.mem_of_find?_eq_some hf), eq_of_beq hp2⟩

/-- C1 counterexample: a batch holding a click whose target id resolves to
no known element followed by a click that would succeed; the Executor
aborts the whole batch with an error instead of dropping the dangling
action, while the same remaining action on its own succeeds. -/
theorem claim_c1_counterexample :
    execute_plan_actions c1Meta happyPageEnv [c1Dangling, c1Good]
      = .error "Element with id 999 not found in metadata."
    ∧ execute_plan_actions c1Meta happyPageEnv [c1Good] = .ok ["1"] := by
  exact ⟨rfl, rfl⟩

/-- C1 amended: a dangling target id on a fill or select action is dropped
by the Validator (every fill or select it emits resolves to a candidate),
but a dangling target id on an action reaching the Executor raises and
aborts the batch rather than being skipped. -/
theorem claim_c1_amended :
    (∀ (top : List Elem) (acts : List PAction) (a : PAction),
        a ∈ validatorOutput top acts →
        (a.action = some "fill" ∨ a.action = some "select") →
        ∃ e ∈ top, e.id = a.target_id.getD "")
    ∧ (∀ (meta : ExecMeta) (env : PageEnv) (tid act : String)
        (params : Params) (rest : List PAction),
        tid ≠ "" → act ≠ "" → resolve_element meta tid = none →
        execute_plan_actions meta env
          ({ action := some act, target_id := some tid, params := params } :: rest)
          = .error ("Element with id " ++ tid ++ " not found in metadata.")) := by
  constructor
  · intro top acts a ha hact
    obtain ⟨tid, htid, hkeep⟩ := agent_b_normalize_kept top acts [] a ha
    rw [htid, Option.getD_some]
    rcases hact with hfill | hsel
    · rw [keepAction, hfill] at hkeep
      simp at hkeep
      refine roleById_mem top tid (fun hempty => ?_)
      rw [hempty] at hkeep
      exact absurd hkeep.2 (by decide)
    · rw [keepAction, hsel] at hkeep
      simp at hkeep
      refine roleById_mem top tid (fun hempty => ?_)
      rw [hempty] at hkeep
      exact absurd hkeep.2 (by decide)
  · intro meta env tid act params rest h1 h2 hres
    simp [execute_plan_actions, hres, h1, h2]

/-- C1 witness: the amended claim instantiated on the scenario-A fill batch
and on the dangling click reaching the executor. -/
theorem claim_c1_amended_witness :
    (∃ e ∈ c1Top, e.id = (c1Fill.target_id.getD ""))
    ∧ execute_plan_actions c1Meta happyPageEnv [c1Dangling]
        = .error "Element with id 999 not found in metadata." := by
  constructor
  · exact claim_c1_amended.1 c1Top [c1Fill] c1Fill (by decide) (Or.inl rfl)
  · exact claim_c1_amended.2 c1Meta happyPageEnv "999" "click" {} []
      (by decide) (by decide) (by rfl)

/-- C3 counterexample: a select whose option-text click fails is reported
failed even though both fallback strategies the claim describes (role-option
match by name, typeahead) would succeed on this control; the code never
consults them. -/
theorem claim_c3_counterexample :
    safe_select c3Env = SelectOutcome.failedFalse
    ∧ c3Env.roleOptionByNameOk = true
    ∧ c3Env.typeaheadOk = true := by
  exact ⟨rfl, rfl, rfl⟩

/-- C3 amended: a select that reaches the Executor first succeeds outright
when the value already matches; otherwise (visible, opened) it tries the
single text-match strategy, whose success decides the action; the
role-option and typeahead capabilities of the page are never consulted. -/
theorem claim_c3_amended (env : SelectEnv) :
    (env.valueMatches = true → safe_select env = .ok)
    ∧ (env.valueMatches = false → env.visible = true → env.openClickOk = true →
        (safe_select env = .ok ↔ env.optionTextClickOk = true))
    ∧ (∀ a t : Bool,
        safe_select { env with roleOptionByNameOk := a, typeaheadOk := t }
          = safe_select env) := by
  obtain ⟨vm, vis, oc, otc, ro, ta⟩ := env
  cases vm <;> cases vis <;> cases oc <;> cases otc <;> cases ro <;> cases ta
    <;> decide

/-- C3 witness: the amended claim applied to a control whose text-match
click succeeds, and invariance under the unconsulted fallback fields. -/
theorem claim_c3_amended_witness :
    (safe_select c3EnvOk = .ok ↔ c3EnvOk.optionTextClickOk = true)
    ∧ safe_select { c3EnvOk with roleOptionByNameOk := true, typeaheadOk := true }
        = safe_select c3EnvOk := by
  exact ⟨(claim_c3_amended c3EnvOk).2.1 rfl rfl rfl,
    (claim_c3_amended c3EnvOk).2.2 true true⟩

/-- Taking a prefix of length n yields at most n elements. -/
theorem take_length_le {α : Type} (l : List α) (n : Nat) :
    (l.take n).length ≤ n := by
  rw [List.length_take]; exact Nat.min_le_left _ _

/-- C4 counterexample: a non-form instruction containing the word fill, ten
buttons ranked above one textbox; the baseline cut yields 10 candidates and
the text-input coverage pass appends the textbox, so the candidate list has
11 elements although K is 10. -/
theorem claim_c4_counterexample :
    isFormMode "fill the title" none = false
    ∧ currentTopK "fill the title" none = 10
    ∧ (selectCandidates "fill the title" c4Elems [] [] false none).length = 11 := by
  refine ⟨by decide, by decide, by decide⟩

/-- C4 amended: the candidate list is bounded by K plus 10 (the two coverage
passes may append up to 5 text-input elements and up to 5 comboboxes beyond
the top-K cut), where K is 10 for a non-form instruction and 25 in form
mode; when neither coverage pass triggers, the original bound K holds. -/
theorem claim_c4_amended (instruction : String) (elements : List Elem)
    (tried ineff : List String) (ui : Bool) (plan : Option PlanSteps) :
    (selectCandidates instruction elements tried ineff ui plan).length
      ≤ currentTopK instruction plan + 10
    ∧ (FILL_PASS_TOKENS.any
          (fun t => isSubstring t (toLowerStr instruction)) = false →
       SELECT_PASS_TOKENS.any
          (fun t => isSubstring t (toLowerStr instruction)) = false →
       (selectCandidates instruction elements tried ineff ui plan).length
         ≤ currentTopK instruction plan) := by
  constructor
  · simp only [selectCandidates]
    split_ifs
    · simp only [List.length_append]
      exact Nat.le_trans
        (Nat.add_le_add (Nat.add_le_add (take_length_le _ _) (take_length_le _ _))
          (take_length_le _ _))
        (show currentTopK instruction plan + 5 + 5
            ≤ currentTopK instruction plan + 10 from by omega)
    · simp only [List.length_append]
      exact Nat.le_trans
        (Nat.add_le_add (take_length_le _ _) (take_length_le _ _))
        (show currentTopK instruction plan + 5
            ≤ currentTopK instruction plan + 10 from by omega)
    · simp only [List.length_append]
      exact Nat.le_trans
        (Nat.add_le_add (take_length_le _ _) (take_length_le _ _))
        (show currentTopK instruction plan + 5
            ≤ currentTopK instruction plan + 10 from by omega)
    · exact Nat.le_trans (take_length_le _ _)
        (Nat.le_add_right (currentTopK instruction plan) 10)
  · intro h1 h2
    simp only [selectCandidates, h1, h2]
    simp only [Bool.false_eq_true, if_false]
    exact take_length_le _ _

/-- C4 witness: the amended bound instantiated on the counterexample
inputs, and the tight bound on an instruction with no coverage keyword. -/
theorem claim_c4_amended_witness :
    (selectCandidates "fill the title" c4Elems [] [] false none).length
      ≤ currentTopK "fill the title" none + 10
    ∧ (selectCandidates "go back" c4Elems [] [] false none).length
      ≤ currentTopK "go back" none := by
  exact ⟨(claim_c4_amended "fill the title" c4Elems [] [] false none).1,
    (claim_c4_amended "go back" c4Elems [] [] false none).2
      (by decide) (by decide)⟩

/-- C6 counterexample: a state at step 14 whose instruction carries the
completion phrase; finalizing reaches step 15 with done still false on
entry, sets done, but records the navigator-instruction reason, not
max_steps. -/
theorem claim_c6_counterexample :
    c6State.done = false
    ∧ (finalize_step c6State).step = 15
    ∧ (finalize_step c6State).done = true
    ∧ (finalize_step c6State).completion_via = some "navigator_instruction"
    ∧ (finalize_step c6State).completion_via ≠ some "max_steps" := by
  refine ⟨rfl, rfl, rfl, rfl, by decide⟩

/-- C6 amended: when the step counter reaches the hard cap of 15 with done
still false, finalizing always sets done to true; the recorded completion
reason is max_steps provided no higher-priority completion fires at the
same finalization (no plan-steps done marker, no goal-completed phrase in
the instruction, no previously recorded reason). -/
theorem claim_c6_amended (st : LoopState) (h0 : st.done = false)
    (hstep : MAX_STEPS ≤ st.step + 1) :
    (finalize_step st).done = true
    ∧ (planStepsDone st.plan_steps = false →
       isSubstring "goal completed" (toLowerStr (st.instruction.getD "")) = false →
       (st.completion_via = none ∨ st.completion_via = some "") →
       (finalize_step st).completion_via = some "max_steps") := by
  constructor
  · simp only [finalize_step, h0]
    by_cases hp : planStepsDone st.plan_steps = true
    · simp [hp]
    · simp only [hp]
      by_cases hg : isSubstring "goal completed"
          (toLowerStr (st.instruction.getD "")) = true
      · simp [hg]
      · simp [hg, hstep]
  · intro hp hg hvia
    simp only [finalize_step, h0, hp, hg]
    simp only [Bool.false_eq_true, if_false]
    have hfired : (if MAX_STEPS ≤ st.step + 1 then some "max_steps"
        else none) = some "max_steps" := if_pos hstep
    simp only [hstep, if_true]
    rcases hvia with h | h <;> simp [h, orDefault]

/-- C6 witness: the amended claim instantiated at step 14 with no competing
completion signal: done is set and the reason is max_steps. -/
theorem claim_c6_amended_witness :
    (finalize_step c6Plain).done = true
    ∧ (finalize_step c6Plain).completion_via = some "max_steps" := by
  have h := claim_c6_amended c6Plain (by decide) (by decide)
  exact ⟨h.1, h.2 (by decide) (by decide) (Or.inl rfl)⟩

/-- C7: when the fresh fingerprint is nonzero and equals the stored one,
the step is judged unchanged and every non-empty executed target id lands
in the ineffective-target set; when the stored fingerprint differs from the
fresh one, the set is cleared and the no-change streak resets to 0. -/
theorem claim_c7_ineffective (st : LoopState) (cur : Nat) (ids : List String) :
    (∀ h : Nat, st.last_image_hash = some h → h = cur → cur ≠ 0 →
      (update_ui_change st cur ids).ui_same = true
      ∧ ∀ tid ∈ ids, tid ≠ "" →
          tid ∈ (update_ui_change st cur ids).ineffective_targets)
    ∧ (∀ h : Nat, st.last_image_hash = some h → h ≠ cur →
        (update_ui_change st cur ids).ineffective_targets = []
        ∧ (update_ui_change st cur ids).no_change_steps = 0) := by
  constructor
  · intro h hlast heq hnz
    subst heq
    have hsame : (match st.last_image_hash with
        | some h0 => h != 0 && h == h0
        | none => false) = true := by
      rw [hlast]; simp [hnz]
    constructor
    · simp only [update_ui_change, hsame]
      simp
    · intro tid htid hne
      simp only [update_ui_change, hsame]
      simp only [if_true]
      exact mem_listUnion_right
        (List.mem_filter.mpr ⟨htid, by simpa using hne⟩)
  · intro h hlast hne
    have hsame : (match st.last_image_hash with
        | some h0 => cur != 0 && cur == h0
        | none => false) = false := by
      rw [hlast]
      have : (cur == h) = false := by
        simp only [beq_eq_false_iff_ne]
        exact fun hc => hne hc.symm
      simp [this]
    constructor <;> · simp only [update_ui_change, hsame]; simp

/-- C7 witness: with stored fingerprint 5 and fresh fingerprint 5 the
executed id lands in the ineffective set; with fresh fingerprint 7 the set
is cleared and the streak resets. -/
theorem claim_c7_ineffective_witness :
    (update_ui_change c7State 5 ["a"]).ui_same = true
    ∧ "a" ∈ (update_ui_change c7State 5 ["a"]).ineffective_targets
    ∧ (update_ui_change c7State 7 ["a"]).ineffective_targets = []
    ∧ (update_ui_change c7State 7 ["a"]).no_change_steps = 0 := by
  have h1 := (claim_c7_ineffective c7State 5 ["a"]).1 5 rfl rfl (by decide)
  have h2 := (claim_c7_ineffective c7State 7 ["a"]).2 5 rfl (by decide)
  exact ⟨h1.1, h1.2 "a" (by decide) (by decide), h2.1, h2.2⟩

/-- C10: on the sentinel fingerprint 0 or a missing stored fingerprint the
step is never judged unchanged and the ineffective-target set ends empty,
so no executed target id is recorded as ineffective. -/
theorem claim_c10_sentinel (st : LoopState) (cur : Nat) (ids : List String)
    (h : cur = 0 ∨ st.last_image_hash = none) :
    (update_ui_change st cur ids).ui_same = false
    ∧ (update_ui_change st cur ids).ineffective_targets = [] := by
  have hsame : (match st.last_image_hash with
      | some h0 => cur != 0 && cur == h0
      | none => false) = false := by
    rcases h with h | h
    · subst h
      cases st.last_image_hash <;> simp
    · rw [h]
  constructor <;> · simp only [update_ui_change, hsame]; simp

/-- C10 witness: sentinel hash with a stored fingerprint present, and a
nonzero hash with no stored fingerprint. -/
theorem claim_c10_sentinel_witness :
    (update_ui_change c7State 0 ["a"]).ui_same = false
    ∧ (update_ui_change c7State 0 ["a"]).ineffective_targets = []
    ∧ (update_ui_change { } 7 ["a"]).ui_same = false := by
  have h1 := claim_c10_sentinel c7State 0 ["a"] (Or.inl rfl)
  have h2 := claim_c10_sentinel { } 7 ["a"] (Or.inr rfl)
  exact ⟨h1.1, h1.2, h2.1⟩

/-- C8: the difference hash is deterministic (identical grids always hash
identically), and the checkerboard grid hashes differently from its exact
color inversion, because every adjacent horizontal comparison flips. -/
theorem claim_c8_dhash :
    (∀ pixels : List Nat, compute_dhash pixels = compute_dhash pixels)
    ∧ compute_dhash checkerGrid ≠ compute_dhash (invertPixels checkerGrid) := by
  refine ⟨fun _ => rfl, ?_⟩
  decide

end WebAgent
